import Mathlib

/-!
Verification development for the konfam-backend detection → verification →
response → publication pipeline. The definitions below are a shallow
embedding of the TypeScript source: JavaScript numbers are modelled as ℚ,
nullable fields as `Option`, fallible external calls as explicit outcome
parameters, and database writes as explicit record updates.
-/

/-- Lifecycle status of a `Threat` row (Prisma enum `ThreatStatus`). -/
inductive ThreatStatus where
  | NEW
  | RESPONDED
  | RESOLVED
deriving Repr, DecidableEq

/-- Status of a `Response` row (Prisma enum `ResponseStatus`). -/
inductive ResponseStatus where
  | PENDING
  | POSTED
  | FAILED
deriving Repr, DecidableEq

/-- Typed dashboard events emitted through the bound WebSocket broadcaster
(`wsBroadcast?.(event, payload)` call sites in the source). -/
inductive Notification where
  | verification_complete (status message : String)
  | verification_failed (message : String)
  | response_ready (responseId : Nat) (preview : String)
  | response_posted (responseId : Nat)
  | response_failed (responseId : Nat) (error : String)
deriving Repr, DecidableEq

/-- A `ScrapedItem` row as read by `verifyThreat` in
`src/services/verification-response.service.ts`: the evidence corpus entry
with an optional title and an optional credibility score. -/
structure ScrapedItem where
  id : Nat
  title : Option String
  url : String
  content : String
  credibility : Option ℚ
deriving Repr, DecidableEq

/-- A `Threat` row with the fields touched by the core pipeline
(`prisma.threat` columns used in `app.ts` and the verification service). -/
structure Threat where
  detectedPostId : Nat
  brandId : Nat
  monitorId : Nat
  severity : String
  threatType : String
  status : ThreatStatus
  threatScore : ℚ
  sentimentImpact : ℚ
  viralityImpact : ℚ
  credibilityImpact : ℚ
  analysisReasons : List String
  predictedReach : ℚ
  verificationStatus : Option String
  verificationConfidence : Option ℚ
  verificationSummary : Option String
  verificationEvidenceIds : List Nat
deriving Repr, DecidableEq

/-- Outcome of the judgment-oracle call inside `verifyThreat`.
`failure` models the `catch` arm being taken: a thrown network error, a
timeout, or `JSON.parse(raw)` throwing on malformed output. `parsed` models
a successful call whose JSON parsed: `verdict` is the `verdict` field when
present and a string (`none` = absent/null), `confidence` is the value of
`Number(parsed.confidence)` with `none` standing for `NaN`, and `reason` is
the `reason` field (`none` = absent/null). -/
inductive OracleReply where
  | failure
  | parsed (verdict : Option String) (confidence : Option ℚ) (reason : Option String)
deriving Repr, DecidableEq

/-- What `verifyThreat` both returns and persists onto the Threat. -/
structure VerificationResult where
  verificationStatus : String
  verificationConfidence : ℚ
  verificationSummary : String
  evidenceIds : List Nat
deriving Repr, DecidableEq

/-- `scraped.filter((s) => (s.credibility ?? 0.5) >= 0.7)` from the source:
an absent credibility defaults to 0.5 before the 0.7 comparison. -/
def credibleOf (scraped : List ScrapedItem) : List ScrapedItem :=
  scraped.filter (fun s => decide ((7 / 10 : ℚ) ≤ s.credibility.getD (1 / 2)))

/-- `Math.max(0, Math.min(100, Number(parsed.confidence) || 60))` from the
source. `Number(parsed.confidence)` evaluating to `NaN` (absent or
non-numeric field, modelled as `none`) or to `0` is falsy, so `|| 60`
replaces it with 60 before clamping to [0, 100]. -/
def judgeConfidence (confidence : Option ℚ) : ℚ :=
  max 0 (min 100 (match confidence with
    | none => 60
    | some c => if c = 0 then 60 else c))

/-- `parsed.reason || "LLM judge summary"` from the source: an absent or
empty `reason` string is falsy and yields the generic summary. -/
def judgeSummary (reason : Option String) : String :=
  match reason with
  | none => "LLM judge summary"
  | some r => if r = "" then "LLM judge summary" else r

/-- The decision core of `verifyThreat`
(src/services/verification-response.service.ts, lines 44–103), as a
function of the evidence-query result and the oracle outcome. The initial
`UNVERIFIED`/40/"No strong evidence found." defaults of the source are
overwritten on every branch and so do not appear. On the oracle branch the
source assigns `parsed.verdict ?? "UNVERIFIED"` to the status without any
runtime restriction to the three expected literals (the narrowing type
annotation is commented out in the source). -/
def verifyThreat (scraped : List ScrapedItem) (oracle : OracleReply) : VerificationResult :=
  let credible := credibleOf scraped
  let evidenceIds := scraped.map (fun s => s.id)
  if scraped.length = 0 then
    { verificationStatus := "UNVERIFIED"
      verificationConfidence := 35
      verificationSummary := "No relevant coverage found among trusted sources."
      evidenceIds := evidenceIds }
  else if credible.length = 0 then
    { verificationStatus := "FALSE"
      verificationConfidence := 80
      verificationSummary := "No trusted outlet confirms this claim; appears unsubstantiated."
      evidenceIds := evidenceIds }
  else
    match oracle with
    | OracleReply.failure =>
      { verificationStatus := "UNVERIFIED"
        verificationConfidence := 60
        verificationSummary := "Judge fallback"
        evidenceIds := evidenceIds }
    | OracleReply.parsed verdict confidence reason =>
      { verificationStatus := verdict.getD "UNVERIFIED"
        verificationConfidence := judgeConfidence confidence
        verificationSummary := judgeSummary reason
        evidenceIds := evidenceIds }

/-- The `prisma.threat.update` call at the end of `verifyThreat`: writes the
four verification fields onto the Threat row, leaving everything else. -/
def persistVerification (t : Threat) (r : VerificationResult) : Threat :=
  { t with
      verificationStatus := some r.verificationStatus
      verificationConfidence := some r.verificationConfidence
      verificationSummary := some r.verificationSummary
      verificationEvidenceIds := r.evidenceIds }

/-- A concrete Threat row used to instantiate persistence statements. -/
def threatSample : Threat :=
  { detectedPostId := 1, brandId := 1, monitorId := 1
    severity := "HIGH", threatType := "CRISIS", status := ThreatStatus.NEW
    threatScore := 70, sentimentImpact := 50, viralityImpact := 20
    credibilityImpact := 60, analysisReasons := ["test"], predictedReach := 100
    verificationStatus := none, verificationConfidence := none
    verificationSummary := none, verificationEvidenceIds := [] }

/-- An evidence item below the credibility threshold. -/
def itemLow : ScrapedItem :=
  { id := 2, title := some "rumor post", url := "http://blog.example/a"
    content := "claim text", credibility := some (4 / 10) }

/-- An evidence item above the credibility threshold. -/
def itemHigh : ScrapedItem :=
  { id := 3, title := some "news article", url := "http://news.example/b"
    content := "claim text", credibility := some (9 / 10) }

/-- C1: verifyThreat follows the decision table — zero evidence items yield
UNVERIFIED at confidence 35 with the no-relevant-coverage summary; a
non-empty result with no credible item yields FALSE at confidence 80; and
with credible items present an oracle failure (thrown error or malformed
output) yields UNVERIFIED at confidence 60 with the generic fallback
summary. All three branches are values of the total function `verifyThreat`
(no oracle error propagates), and `persistVerification` writes exactly the
returned fields onto the Threat. -/
theorem verifyThreat_decision_table (scraped : List ScrapedItem)
    (oracle : OracleReply) (t : Threat) :
    (scraped = [] →
      verifyThreat scraped oracle =
        { verificationStatus := "UNVERIFIED", verificationConfidence := 35
          verificationSummary := "No relevant coverage found among trusted sources."
          evidenceIds := [] }) ∧
    (scraped ≠ [] → credibleOf scraped = [] →
      verifyThreat scraped oracle =
        { verificationStatus := "FALSE", verificationConfidence := 80
          verificationSummary := "No trusted outlet confirms this claim; appears unsubstantiated."
          evidenceIds := scraped.map (fun s => s.id) }) ∧
    (credibleOf scraped ≠ [] → oracle = OracleReply.failure →
      verifyThreat scraped oracle =
        { verificationStatus := "UNVERIFIED", verificationConfidence := 60
          verificationSummary := "Judge fallback"
          evidenceIds := scraped.map (fun s => s.id) }) ∧
    ((persistVerification t (verifyThreat scraped oracle)).verificationStatus
        = some (verifyThreat scraped oracle).verificationStatus ∧
      (persistVerification t (verifyThreat scraped oracle)).verificationConfidence
        = some (verifyThreat scraped oracle).verificationConfidence ∧
      (persistVerification t (verifyThreat scraped oracle)).verificationSummary
        = some (verifyThreat scraped oracle).verificationSummary ∧
      (persistVerification t (verifyThreat scraped oracle)).verificationEvidenceIds
        = (verifyThreat scraped oracle).evidenceIds) := by
  refine ⟨?_, ?_, ?_, ?_, ?_, ?_, ?_⟩
  · intro h
    subst h
    rfl
  · intro hne hcred
    have hlen : scraped.length ≠ 0 := by
      simpa using fun h => hne (List.length_eq_zero.mp h)
    have hclen : (credibleOf scraped).length = 0 := by
      simp [hcred]
    simp [verifyThreat, hlen, hclen]
  · intro hcred horacle
    have hlen : scraped.length ≠ 0 := by
      intro h
      have : scraped = [] := List.length_eq_zero.mp h
      subst this
      exact hcred (by simp [credibleOf])
    have hclen : (credibleOf scraped).length ≠ 0 := by
      simpa using fun h => hcred (List.length_eq_zero.mp h)
    subst horacle
    simp [verifyThreat, hlen, hclen]
  · rfl
  · rfl
  · rfl
  · rfl

/-- Witness for C1: instantiates the decision table at a concrete empty
evidence set, a concrete low-credibility set, and a concrete failing
oracle. -/
theorem verifyThreat_decision_table_witness :
    verifyThreat [] OracleReply.failure =
      { verificationStatus := "UNVERIFIED", verificationConfidence := 35
        verificationSummary := "No relevant coverage found among trusted sources."
        evidenceIds := [] } ∧
    verifyThreat [itemLow] OracleReply.failure =
      { verificationStatus := "FALSE", verificationConfidence := 80
        verificationSummary := "No trusted outlet confirms this claim; appears unsubstantiated."
        evidenceIds := [2] } ∧
    verifyThreat [itemHigh] OracleReply.failure =
      { verificationStatus := "UNVERIFIED", verificationConfidence := 60
        verificationSummary := "Judge fallback"
        evidenceIds := [3] } := by
  refine ⟨(verifyThreat_decision_table [] OracleReply.failure threatSample).1 rfl,
    ?_, ?_⟩
  · have h := (verifyThreat_decision_table [itemLow] OracleReply.failure threatSample).2.1
    have hcred : credibleOf [itemLow] = [] := by
      simp [credibleOf, itemLow]
      norm_num
    simpa [itemLow] using h (by simp) hcred
  · have h := (verifyThreat_decision_table [itemHigh] OracleReply.failure threatSample).2.2.1
    have hcred : credibleOf [itemHigh] ≠ [] := by
      simp [credibleOf, itemHigh]
      norm_num
    simpa [itemHigh] using h hcred rfl

/-- C2 counterexample: with one credible evidence item and a parseable
oracle reply whose verdict field is the string "MAYBE", `verifyThreat`
persists and returns the status "MAYBE", which is none of TRUE, FALSE,
UNVERIFIED. -/
theorem verifyThreat_status_escape :
    (verifyThreat [itemHigh]
        (OracleReply.parsed (some "MAYBE") (some 70) (some "sources unclear"))).verificationStatus
      = "MAYBE" ∧
    ("MAYBE" : String) ≠ "TRUE" ∧ ("MAYBE" : String) ≠ "FALSE" ∧
    ("MAYBE" : String) ≠ "UNVERIFIED" := by
  refine ⟨?_, by decide, by decide, by decide⟩
  have hcred : credibleOf [itemHigh] = [itemHigh] := by
    simp [credibleOf, itemHigh]
    norm_num
  simp [verifyThreat, hcred]

/-- C2 amended: the status `verifyThreat` persists and returns is TRUE,
FALSE, or UNVERIFIED on the no-evidence, no-credible-evidence, and
oracle-failure branches and when the oracle omits the verdict field; but
when credible evidence exists and the oracle reply parses with a verdict
string present, that string is stored verbatim, whatever it is. -/
theorem verifyThreat_status_cases (scraped : List ScrapedItem) (oracle : OracleReply) :
    (verifyThreat scraped oracle).verificationStatus = "TRUE" ∨
    (verifyThreat scraped oracle).verificationStatus = "FALSE" ∨
    (verifyThreat scraped oracle).verificationStatus = "UNVERIFIED" ∨
    (∃ confidence reason, oracle =
      OracleReply.parsed (some (verifyThreat scraped oracle).verificationStatus)
        confidence reason) := by
  by_cases hlen : scraped.length = 0
  · right; right; left
    simp [verifyThreat, hlen]
  · by_cases hclen : (credibleOf scraped).length = 0
    · right; left
      simp [verifyThreat, hlen, hclen]
    · cases oracle with
      | failure =>
        right; right; left
        simp [verifyThreat, hlen, hclen]
      | parsed verdict confidence reason =>
        cases verdict with
        | none =>
          right; right; left
          simp [verifyThreat, hlen, hclen]
        | some v =>
          right; right; right
          exact ⟨confidence, reason, by simp [verifyThreat, hlen, hclen]⟩

/-- Result value of `handleThreatVerifyRespond`: either
`{ verified: false, action: "responded", responseId }` or
`{ verified: true, action: "no_response_needed", status }`. -/
inductive HandleResult where
  | responded (responseId : Nat)
  | noResponseNeeded (status : String)
deriving Repr, DecidableEq

/-- Observable outcome of one run of the orchestrator: whether
`generateResponseForFalse` was invoked, the dashboard events emitted, and
the returned value. -/
structure Orchestration where
  responseSynthesized : Bool
  events : List Notification
  result : HandleResult
deriving Repr, DecidableEq

/-- `handleThreatVerifyRespond`
(src/services/verification-response.service.ts, lines 437–473) as a
function of the verification result just produced. The events of the
sub-calls are passed in: `genEvents` stands for what a successful
`generateResponseForFalse` emits (its response_ready broadcast) and
`postEvents` for what `postResponseToXClone` emits when `autopost` is set.
The else branch emits only the verification_complete event. -/
def handleThreatVerifyRespond (vr : VerificationResult) (autopost : Bool)
    (genEvents postEvents : List Notification) (responseId : Nat) : Orchestration :=
  if vr.verificationStatus = "FALSE" ∨ vr.verificationStatus = "UNVERIFIED" then
    { responseSynthesized := true
      events := genEvents ++ (if autopost then postEvents else [])
      result := HandleResult.responded responseId }
  else
    { responseSynthesized := false
      events := [Notification.verification_complete "VERIFIED_TRUE"
        "✅ Verified as true — no response needed"]
      result := HandleResult.noResponseNeeded vr.verificationStatus }

/-- C3: in the orchestrated verify-respond chain a Response is synthesized
for a threat if and only if the verification status just produced is FALSE
or UNVERIFIED; a TRUE verdict synthesizes no Response and emits only the
verification_complete notification. -/
theorem handleThreatVerifyRespond_response_iff (vr : VerificationResult)
    (autopost : Bool) (genEvents postEvents : List Notification) (responseId : Nat) :
    ((handleThreatVerifyRespond vr autopost genEvents postEvents responseId).responseSynthesized
        = true ↔
      (vr.verificationStatus = "FALSE" ∨ vr.verificationStatus = "UNVERIFIED")) ∧
    (vr.verificationStatus = "TRUE" →
      (handleThreatVerifyRespond vr autopost genEvents postEvents responseId).responseSynthesized
          = false ∧
      (handleThreatVerifyRespond vr autopost genEvents postEvents responseId).events
          = [Notification.verification_complete "VERIFIED_TRUE"
              "✅ Verified as true — no response needed"]) := by
  by_cases h : vr.verificationStatus = "FALSE" ∨ vr.verificationStatus = "UNVERIFIED"
  · refine ⟨by simp [handleThreatVerifyRespond, h], ?_⟩
    intro htrue
    rcases h with h | h <;> rw [htrue] at h <;> simp at h
  · refine ⟨by simp [handleThreatVerifyRespond, h], ?_⟩
    intro _
    simp [handleThreatVerifyRespond, h]

/-- Witness for C3: a TRUE verdict at a concrete verification result
synthesizes nothing and fires only verification_complete, while a FALSE
verdict synthesizes a response. -/
theorem handleThreatVerifyRespond_response_iff_witness :
    (handleThreatVerifyRespond
        { verificationStatus := "TRUE", verificationConfidence := 90
          verificationSummary := "confirmed", evidenceIds := [3] }
        false [] [] 1).responseSynthesized = false ∧
    (handleThreatVerifyRespond
        { verificationStatus := "TRUE", verificationConfidence := 90
          verificationSummary := "confirmed", evidenceIds := [3] }
        false [] [] 1).events
      = [Notification.verification_complete "VERIFIED_TRUE"
          "✅ Verified as true — no response needed"] ∧
    (handleThreatVerifyRespond
        { verificationStatus := "FALSE", verificationConfidence := 80
          verificationSummary := "unsubstantiated", evidenceIds := [2] }
        false [] [] 1).responseSynthesized = true := by
  have h1 := (handleThreatVerifyRespond_response_iff
    { verificationStatus := "TRUE", verificationConfidence := 90
      verificationSummary := "confirmed", evidenceIds := [3] }
    false [] [] 1).2 rfl
  have h2 := (handleThreatVerifyRespond_response_iff
    { verificationStatus := "FALSE", verificationConfidence := 80
      verificationSummary := "unsubstantiated", evidenceIds := [2] }
    false [] [] 1).1.mpr (Or.inl rfl)
  exact ⟨h1.1, h1.2, h2⟩

/-- Engagement counters of an incoming post, as passed to
`detectAndStorePost` in `app.ts`. -/
structure EngagementData where
  likeCount : Nat
  retweetCount : Nat
  replyCount : Nat
  viewCount : Nat
deriving Repr, DecidableEq

/-- `data.likeCount + data.retweetCount + data.replyCount` (app.ts 629). -/
def totalEngagement (d : EngagementData) : ℚ :=
  (d.likeCount : ℚ) + (d.retweetCount : ℚ) + (d.replyCount : ℚ)

/-- `data.viewCount > 0 ? totalEngagement / data.viewCount : 0`
(app.ts 630): a zero-view post gets rate 0. -/
def engagementRate (d : EngagementData) : ℚ :=
  if 0 < d.viewCount then totalEngagement d / (d.viewCount : ℚ) else 0

/-- `Math.min(100, engagementRate * 100 * (1 + data.retweetCount * 0.5))`
(app.ts 631). -/
def viralScore (d : EngagementData) : ℚ :=
  min 100 (engagementRate d * 100 * (1 + (d.retweetCount : ℚ) * (1 / 2)))

/-- Stated from the spec sentence, for comparison with the source formula:
engagementRate = (likes+retweets+replies)/max(views,1). -/
def engagementRateSpecified (d : EngagementData) : ℚ :=
  totalEngagement d / max (d.viewCount : ℚ) 1

/-- Stated from the spec sentence, for comparison with the source formula:
virality = min(100, engagementRate × 100 × (1 + retweetCount × 0.5)) over
`engagementRateSpecified`. -/
def viralScoreSpecified (d : EngagementData) : ℚ :=
  min 100 (engagementRateSpecified d * 100 * (1 + (d.retweetCount : ℚ) * (1 / 2)))

/-- C5 counterexample: a post with 5 likes and zero views gets virality 0
from the code (zero-view branch yields rate 0), while the spec formula
min(100, (5/max(0,1)) × 100 × 1) gives 100. -/
theorem viralScore_zero_views_mismatch :
    viralScore { likeCount := 5, retweetCount := 0, replyCount := 0, viewCount := 0 } = 0 ∧
    viralScoreSpecified { likeCount := 5, retweetCount := 0, replyCount := 0, viewCount := 0 } = 100 ∧
    viralScore { likeCount := 5, retweetCount := 0, replyCount := 0, viewCount := 0 }
      ≠ viralScoreSpecified { likeCount := 5, retweetCount := 0, replyCount := 0, viewCount := 0 } := by
  have h1 : viralScore { likeCount := 5, retweetCount := 0, replyCount := 0, viewCount := 0 } = 0 := by
    simp [viralScore, engagementRate]
  have h2 : viralScoreSpecified { likeCount := 5, retweetCount := 0, replyCount := 0, viewCount := 0 } = 100 := by
    simp [viralScoreSpecified, engagementRateSpecified, totalEngagement]
  refine ⟨h1, h2, ?_⟩
  rw [h1, h2]
  norm_num

/-- C5 amended: the source virality formula agrees with the spec formula
min(100, rate × 100 × (1 + retweets × 0.5)) with
rate = total/max(views,1) whenever the post has at least one view; a
zero-view post instead gets engagementRate 0 and hence virality 0. -/
theorem viralScore_agrees_on_positive_views (d : EngagementData) :
    (0 < d.viewCount → viralScore d = viralScoreSpecified d) ∧
    (d.viewCount = 0 → engagementRate d = 0 ∧ viralScore d = 0) := by
  constructor
  · intro h
    have h1 : (1 : ℚ) ≤ (d.viewCount : ℚ) := by exact_mod_cast h
    have hmax : max (d.viewCount : ℚ) 1 = (d.viewCount : ℚ) := max_eq_left h1
    simp [viralScore, viralScoreSpecified, engagementRate, engagementRateSpecified, h, hmax]
  · intro h
    have hnot : ¬ 0 < d.viewCount := by omega
    refine ⟨by simp [engagementRate, hnot], ?_⟩
    simp [viralScore, engagementRate, hnot]

/-- Witness for C5 amended: a 10-view post agrees with the spec formula,
and a zero-view post gets rate and virality 0. -/
theorem viralScore_agrees_on_positive_views_witness :
    viralScore { likeCount := 2, retweetCount := 1, replyCount := 1, viewCount := 10 }
      = viralScoreSpecified { likeCount := 2, retweetCount := 1, replyCount := 1, viewCount := 10 } ∧
    engagementRate { likeCount := 2, retweetCount := 1, replyCount := 1, viewCount := 0 } = 0 ∧
    viralScore { likeCount := 2, retweetCount := 1, replyCount := 1, viewCount := 0 } = 0 := by
  have h1 := (viralScore_agrees_on_positive_views
    { likeCount := 2, retweetCount := 1, replyCount := 1, viewCount := 10 }).1 (by decide)
  have h2 := (viralScore_agrees_on_positive_views
    { likeCount := 2, retweetCount := 1, replyCount := 1, viewCount := 0 }).2 rfl
  exact ⟨h1, h2.1, h2.2⟩

/-- Field values written by the threat upsert in `detectAndStorePost`
(app.ts 760–786). The update clause writes all of them except the
create-only keys and `predictedReach`; `credibilityImpact` carries the
already-sampled `50 + Math.random() * 30` value. -/
structure ThreatUpsertArgs where
  severity : String
  threatType : String
  threatScore : ℚ
  sentimentImpact : ℚ
  viralityImpact : ℚ
  credibilityImpact : ℚ
  analysisReasons : List String
  detectedPostId : Nat
  brandId : Nat
  monitorId : Nat
  predictedReach : ℚ
deriving Repr, DecidableEq

/-- `prisma.threat.upsert` keyed on `detectedPostId` (app.ts 760–786): the
update clause rewrites the scoring fields and sets
`status: ThreatStatus.NEW`; the create clause builds a fresh row with
status NEW and null verification fields. -/
def threatUpsert (existing : Option Threat) (a : ThreatUpsertArgs) : Threat :=
  match existing with
  | some t =>
    { t with
        severity := a.severity
        threatType := a.threatType
        threatScore := a.threatScore
        sentimentImpact := a.sentimentImpact
        viralityImpact := a.viralityImpact
        credibilityImpact := a.credibilityImpact
        analysisReasons := a.analysisReasons
        status := ThreatStatus.NEW }
  | none =>
    { detectedPostId := a.detectedPostId
      brandId := a.brandId
      monitorId := a.monitorId
      severity := a.severity
      threatType := a.threatType
      status := ThreatStatus.NEW
      threatScore := a.threatScore
      sentimentImpact := a.sentimentImpact
      viralityImpact := a.viralityImpact
      credibilityImpact := a.credibilityImpact
      analysisReasons := a.analysisReasons
      predictedReach := a.predictedReach
      verificationStatus := none
      verificationConfidence := none
      verificationSummary := none
      verificationEvidenceIds := [] }

/-- Concrete upsert arguments for counterexample instantiation. -/
def upsertArgsSample : ThreatUpsertArgs :=
  { severity := "HIGH", threatType := "VIRAL_RISK", threatScore := 65
    sentimentImpact := 40, viralityImpact := 30, credibilityImpact := 60
    analysisReasons := ["keyword"], detectedPostId := 1, brandId := 1
    monitorId := 1, predictedReach := 500 }

/-- C6 counterexample: a Threat that has advanced to RESPONDED is demoted
back to NEW when the same DetectedPost re-triggers the upsert, because the
update clause writes `status: ThreatStatus.NEW` unconditionally. -/
theorem threatUpsert_demotes_responded :
    ({ threatSample with status := ThreatStatus.RESPONDED } : Threat).status
        = ThreatStatus.RESPONDED ∧
    (threatUpsert (some { threatSample with status := ThreatStatus.RESPONDED })
        upsertArgsSample).status = ThreatStatus.NEW ∧
    ThreatStatus.NEW ≠ ThreatStatus.RESPONDED :=
  ⟨rfl, rfl, by decide⟩

/-- C6 amended: the threat upsert writes status NEW on every path — fresh
creation sets NEW, and every re-trigger of the same DetectedPost resets the
existing Threat's status to NEW, demoting RESPONDED/RESOLVED threats. -/
theorem threatUpsert_status_always_new (existing : Option Threat)
    (a : ThreatUpsertArgs) : (threatUpsert existing a).status = ThreatStatus.NEW := by
  cases existing <;> rfl

/-- A `Response` row with the columns written by
`generateResponseForFalse` and the publisher. -/
structure ResponseRec where
  threatId : Nat
  platform : String
  content : String
  sourcesUsed : List String
  confidence : ℚ
  status : ResponseStatus
  autoGenerated : Bool
  postedAt : Option Nat
deriving Repr, DecidableEq

/-- `completion.choices[0]?.message?.content?.trim() || fallback` from
`generateResponseForFalse`: `oracleText` is the trimmed oracle text when
the call produced any (`none` = missing content chain), and an empty trim
result is falsy, so both fall back to the fixed brand sentence. -/
def rawContentOf (oracleText : Option String) (brandName : String) : String :=
  let fallbackText := brandName ++ ": This claim is incorrect. Operations remain normal."
  match oracleText with
  | none => fallbackText
  | some s => if s = "" then fallbackText else s

/-- `if (rawContent.length > 580) rawContent = rawContent.slice(0, 580) + "…"`
from the source: the 580-character budget with the appended ellipsis. -/
def cappedContent (rawContent : String) : String :=
  if rawContent.length > 580 then rawContent.take 580 ++ "…" else rawContent

/-- The `verifiedSourcesHTML` block of `generateResponseForFalse`: a
rendered `<ul>` of anchor items when any source URL was selected, else a
fixed placeholder paragraph. -/
def verifiedSourcesHTML (sourcesUsed : List String) : String :=
  if sourcesUsed.length > 0 then
    "<ul>" ++ String.join (sourcesUsed.map (fun src =>
      "<li><a href=\"" ++ src ++ "\" target=\"_blank\">" ++ src ++ "</a></li>")) ++ "</ul>"
  else
    "<p>No verified press sources available yet.</p>"

/-- The fixed footer of the `htmlContent` template literal in
`generateResponseForFalse`: everything between the interpolated correction
text and the interpolated sources block, byte for byte (including the
trailing spaces inside the template). -/
def htmlFooter : String :=
  "</p>\n\n<br/>\n\n<p>\n  For instant support, please chat with \n  <span style=\"color:#007bff;font-weight:600;\">Zenith Bank’s official assistant, ZiVA</span>,\n  on WhatsApp at \n  <a href=\"https://wa.me/2347040004422\" style=\"color:#007bff;font-weight:600;\">\n    07040004422\n  </a>.\n</p>\n\n<br/>\n\n<h4>Verified Sources</h4>\n"

/-- The `htmlContent` template of `generateResponseForFalse` with the
outer `.trim()` applied: the template literal starts with a newline
directly before `<p>` and ends with a newline and two spaces directly
after the interpolated sources block, and since `<p>` and the sources
block's closing `>` are not whitespace, the trim removes exactly those
constant edges for every input. -/
def htmlContent (rawContent : String) (sourcesUsed : List String) : String :=
  "<p>" ++ rawContent ++ htmlFooter ++ verifiedSourcesHTML sourcesUsed

/-- `generateResponseForFalse`
(src/services/verification-response.service.ts, lines 119–230) from the
point the oracle call has resolved: builds the capped correction text,
wraps it into the HTML template, and upserts the Response keyed by
threatId (update rewrites content/sources/confidence/status/autoGenerated;
create builds a fresh PENDING row). Returns the stored row together with
the emitted response_ready event, whose preview is the first 240
characters of the capped correction. -/
def generateResponseForFalse (existing : Option ResponseRec) (threatId : Nat)
    (platform : String) (verificationConfidence : Option ℚ)
    (oracleText : Option String) (brandName : String)
    (sourcesUsed : List String) (responseId : Nat) : ResponseRec × Notification :=
  let raw := cappedContent (rawContentOf oracleText brandName)
  let content := htmlContent raw sourcesUsed
  let conf := verificationConfidence.getD 80
  let row : ResponseRec :=
    match existing with
    | some r =>
      { r with
          content := content
          sourcesUsed := sourcesUsed
          confidence := conf
          status := ResponseStatus.PENDING
          autoGenerated := true }
    | none =>
      { threatId := threatId
        platform := platform
        content := content
        sourcesUsed := sourcesUsed
        confidence := conf
        status := ResponseStatus.PENDING
        autoGenerated := true
        postedAt := none }
  (row, Notification.response_ready responseId (raw.take 240))

/-- A 600-character oracle output used to exercise the truncation branch. -/
def longOracleText : String := String.mk (List.replicate 600 (Char.ofNat 97))

/-- The content column written by `generateResponseForFalse` is the HTML
wrapping of the capped correction text, on both the update and the create
path of the upsert. -/
theorem generateResponse_content_eq (existing : Option ResponseRec)
    (threatId : Nat) (platform : String) (verificationConfidence : Option ℚ)
    (oracleText brandName : String) (sourcesUsed : List String)
    (responseId : Nat) (hne : oracleText ≠ "") :
    (generateResponseForFalse existing threatId platform verificationConfidence
        (some oracleText) brandName sourcesUsed responseId).1.content
      = htmlContent (cappedContent oracleText) sourcesUsed := by
  cases existing <;> simp [generateResponseForFalse, rawContentOf, hne]

/-- C4 counterexample: a 600-character oracle output is truncated to 580
characters plus an ellipsis, yet the stored Response content — the HTML
wrapping of that text with the fixed footer and sources block — is longer
than the 580-character budget. -/
theorem storedResponse_content_exceeds_budget :
    ((generateResponseForFalse none 1 "TWITTER" (some 80) (some longOracleText)
        "Zenith Bank" [] 1).1).content.length > 580 := by
  have hlen600 : longOracleText.length = 600 := by
    unfold longOracleText
    rw [String.length_mk, List.length_replicate]
  have hne : longOracleText ≠ "" := by
    intro h
    rw [h] at hlen600
    simp at hlen600
  have hcap : (cappedContent longOracleText).length = 581 := by
    rw [cappedContent, if_pos (by rw [hlen600]; norm_num)]
    rw [String.length_append]
    have htake : (longOracleText.take 580).length = 580 := by
      rw [String.take_eq, String.length_mk]
      unfold longOracleText
      rw [List.length_take, List.length_replicate]
      norm_num
    rw [htake]
    norm_num [String.length]
  have hcontent : ((generateResponseForFalse none 1 "TWITTER" (some 80)
      (some longOracleText) "Zenith Bank" [] 1).1).content
      = htmlContent (cappedContent longOracleText) [] :=
    generateResponse_content_eq none 1 "TWITTER" (some 80) longOracleText
      "Zenith Bank" [] 1 hne
  rw [hcontent, htmlContent]
  rw [String.length_append, String.length_append, String.length_append, hcap]
  omega

/-- C4 amended: the oracle correction text is truncated to its first 580
characters with an appended ellipsis exactly when it exceeds 580
characters (shorter output is kept verbatim), and the stored Response
content is the HTML template wrapped around the truncated text — the fixed
footer and the sources block are appended, so the stored content itself is
not bounded by the 580-character budget. -/
theorem generateResponse_truncation_behavior (oracleText brandName platform : String)
    (verificationConfidence : Option ℚ) (sourcesUsed : List String)
    (existing : Option ResponseRec) (threatId responseId : Nat)
    (hne : oracleText ≠ "") :
    (oracleText.length > 580 →
      cappedContent oracleText = oracleText.take 580 ++ "…") ∧
    (oracleText.length ≤ 580 → cappedContent oracleText = oracleText) ∧
    (generateResponseForFalse existing threatId platform verificationConfidence
        (some oracleText) brandName sourcesUsed responseId).1.content
      = htmlContent (cappedContent oracleText) sourcesUsed := by
  refine ⟨?_, ?_, ?_⟩
  · intro h
    rw [cappedContent, if_pos h]
  · intro h
    rw [cappedContent, if_neg (by omega)]
  · exact generateResponse_content_eq existing threatId platform
      verificationConfidence oracleText brandName sourcesUsed responseId hne

/-- Witness for C4 amended: a short oracle text is kept verbatim and the
stored content is its HTML wrapping. -/
theorem generateResponse_truncation_behavior_witness :
    cappedContent "ok" = "ok" ∧
    (generateResponseForFalse none 1 "TWITTER" none (some "ok") "Zenith Bank" [] 1).1.content
      = htmlContent (cappedContent "ok") [] := by
  have h := generateResponse_truncation_behavior "ok" "Zenith Bank" "TWITTER"
    none [] none 1 1 (by decide)
  exact ⟨h.2.1 (by decide), h.2.2⟩

/-- The row `postResponseToXClone` selects for a Response id: the content,
the owning threat, and the detected post's author handle and external post
id (the reply target, nullable in the schema). -/
structure PostLookup where
  responseId : Nat
  content : String
  threatId : Nat
  authorHandle : String
  externalPostId : Option String
deriving Repr, DecidableEq

/-- The payload built for `/api/twitter/tweets`. -/
structure XClonePayload where
  text : String
  quoteTweet : String
  language : String
  isKonfamResponse : Bool
deriving Repr, DecidableEq

/-- Outcome of the outbound `fetch` call: `networkError` models `fetch` (or
reading the body) throwing, `reply ok text` models an HTTP reply with
`res.ok` and the body text. -/
inductive FetchOutcome where
  | networkError (msg : String)
  | reply (ok : Bool) (text : String)
deriving Repr, DecidableEq

/-- Everything observable about one `postResponseToXClone` run:
whether the outbound HTTP call was attempted, the payload submitted, the
status written to the Response row (`none` = row untouched), the dashboard
events emitted, and the thrown-or-returned outcome. -/
structure PublishTrace where
  httpCalled : Bool
  payloadSent : Option XClonePayload
  updatedStatus : Option ResponseStatus
  events : List Notification
  outcome : Except String Unit
deriving Repr

/-- `postResponseToXClone`
(src/services/verification-response.service.ts, lines 323–432). The two
guard throws — missing Response row, and a missing or empty external post
id (`if (!detectedPostId)`, where both `undefined` and `""` are falsy) —
happen before the `try` block, so they leave the row untouched, emit
nothing, and make no HTTP call. Inside the `try`, a non-ok reply throws
`"X-clone response: " + text`; the `catch` sets the row to FAILED, emits
response_failed with the error message, and rethrows. -/
def postResponseToXClone (row : Option PostLookup) (http : FetchOutcome) : PublishTrace :=
  match row with
  | none =>
    { httpCalled := false, payloadSent := none, updatedStatus := none
      events := [], outcome := Except.error "Response not found" }
  | some r =>
    if r.externalPostId.getD "" = "" then
      { httpCalled := false, payloadSent := none, updatedStatus := none
        events := [], outcome := Except.error "Detected post not found for threat" }
    else
      let pid := r.externalPostId.getD ""
      let payload : XClonePayload :=
        { text := "@" ++ r.authorHandle ++ " " ++ r.content
          quoteTweet := pid, language := "ENGLISH", isKonfamResponse := true }
      match http with
      | FetchOutcome.networkError msg =>
        { httpCalled := true, payloadSent := some payload
          updatedStatus := some ResponseStatus.FAILED
          events := [Notification.response_failed r.responseId msg]
          outcome := Except.error msg }
      | FetchOutcome.reply ok text =>
        if ok then
          { httpCalled := true, payloadSent := some payload
            updatedStatus := some ResponseStatus.POSTED
            events := [Notification.response_posted r.responseId]
            outcome := Except.ok () }
        else
          { httpCalled := true, payloadSent := some payload
            updatedStatus := some ResponseStatus.FAILED
            events := [Notification.response_failed r.responseId
              ("X-clone response: " ++ text)]
            outcome := Except.error ("X-clone response: " ++ text) }

/-- C7: when the Response's detected post has no external post id (absent
or empty, both falsy in the source guard), `postResponseToXClone` throws
the domain error "Detected post not found for threat" before any network
call: the HTTP endpoint is never contacted, no payload is built, and the
row and dashboard are untouched. -/
theorem postResponseToXClone_missing_external_id (r : PostLookup)
    (http : FetchOutcome) (h : r.externalPostId.getD "" = "") :
    postResponseToXClone (some r) http =
      { httpCalled := false, payloadSent := none, updatedStatus := none
        events := [], outcome := Except.error "Detected post not found for threat" } := by
  simp [postResponseToXClone, h]

/-- Witness for C7: a concrete Response row with no external post id is
rejected without an HTTP call. -/
theorem postResponseToXClone_missing_external_id_witness :
    postResponseToXClone
        (some { responseId := 1, content := "correction", threatId := 1
                authorHandle := "user", externalPostId := none })
        (FetchOutcome.reply true "irrelevant") =
      { httpCalled := false, payloadSent := none, updatedStatus := none
        events := [], outcome := Except.error "Detected post not found for threat" } :=
  postResponseToXClone_missing_external_id
    { responseId := 1, content := "correction", threatId := 1
      authorHandle := "user", externalPostId := none }
    (FetchOutcome.reply true "irrelevant") rfl

/-- C8: on a non-success HTTP reply, `postResponseToXClone` sets the
Response row to FAILED, emits a response_failed notification whose error
message is non-empty (it starts with the fixed "X-clone response: "
prefix), and propagates that same error to the caller. -/
theorem postResponseToXClone_http_failure (r : PostLookup) (text : String)
    (h : r.externalPostId.getD "" ≠ "") :
    (postResponseToXClone (some r) (FetchOutcome.reply false text)).updatedStatus
        = some ResponseStatus.FAILED ∧
    (postResponseToXClone (some r) (FetchOutcome.reply false text)).events
        = [Notification.response_failed r.responseId ("X-clone response: " ++ text)] ∧
    ("X-clone response: " ++ text).length ≠ 0 ∧
    (postResponseToXClone (some r) (FetchOutcome.reply false text)).outcome
        = Except.error ("X-clone response: " ++ text) := by
  refine ⟨?_, ?_, ?_, ?_⟩ <;> simp [postResponseToXClone, h]
  intro hz
  exact absurd hz (by decide)

/-- Witness for C8: a concrete row with an external post id and an HTTP 500
reply with body "Internal Server Error". -/
theorem postResponseToXClone_http_failure_witness :
    (postResponseToXClone
        (some { responseId := 2, content := "correction", threatId := 1
                authorHandle := "user", externalPostId := some "tw-99" })
        (FetchOutcome.reply false "Internal Server Error")).updatedStatus
      = some ResponseStatus.FAILED ∧
    (postResponseToXClone
        (some { responseId := 2, content := "correction", threatId := 1
                authorHandle := "user", externalPostId := some "tw-99" })
        (FetchOutcome.reply false "Internal Server Error")).events
      = [Notification.response_failed 2 ("X-clone response: " ++ "Internal Server Error")] ∧
    ("X-clone response: " ++ "Internal Server Error").length ≠ 0 ∧
    (postResponseToXClone
        (some { responseId := 2, content := "correction", threatId := 1
                authorHandle := "user", externalPostId := some "tw-99" })
        (FetchOutcome.reply false "Internal Server Error")).outcome
      = Except.error ("X-clone response: " ++ "Internal Server Error") :=
  postResponseToXClone_http_failure
    { responseId := 2, content := "correction", threatId := 1
      authorHandle := "user", externalPostId := some "tw-99" }
    "Internal Server Error" (by decide)

/-- C10: when `postResponseToXClone` throws before the try block — the
Response row is missing, or the detected post's external post id is absent
or empty — the Response row is left untouched (no FAILED write) and no
notification of any kind is emitted; in particular no response_failed
event fires. -/
theorem postResponseToXClone_pre_try_leaves_row (row : Option PostLookup)
    (http : FetchOutcome)
    (h : row = none ∨ ∃ r, row = some r ∧ r.externalPostId.getD "" = "") :
    (postResponseToXClone row http).updatedStatus = none ∧
    (postResponseToXClone row http).events = [] ∧
    (postResponseToXClone row http).httpCalled = false := by
  rcases h with h | ⟨r, hrow, hid⟩
  · subst h
    exact ⟨rfl, rfl, rfl⟩
  · subst hrow
    refine ⟨?_, ?_, ?_⟩ <;> simp [postResponseToXClone, hid]

/-- Witness for C10: both pre-try failure shapes at concrete inputs — a
missing row, and a row whose external post id is the empty string. -/
theorem postResponseToXClone_pre_try_leaves_row_witness :
    (postResponseToXClone none (FetchOutcome.networkError "refused")).updatedStatus = none ∧
    (postResponseToXClone none (FetchOutcome.networkError "refused")).events = [] ∧
    (postResponseToXClone
        (some { responseId := 3, content := "c", threatId := 1
                authorHandle := "user", externalPostId := some "" })
        (FetchOutcome.reply false "boom")).updatedStatus = none ∧
    (postResponseToXClone
        (some { responseId := 3, content := "c", threatId := 1
                authorHandle := "user", externalPostId := some "" })
        (FetchOutcome.reply false "boom")).events = [] := by
  have h1 := postResponseToXClone_pre_try_leaves_row none
    (FetchOutcome.networkError "refused") (Or.inl rfl)
  have h2 := postResponseToXClone_pre_try_leaves_row
    (some { responseId := 3, content := "c", threatId := 1
            authorHandle := "user", externalPostId := some "" })
    (FetchOutcome.reply false "boom")
    (Or.inr ⟨_, rfl, rfl⟩)
  exact ⟨h1.1, h1.2.1, h2.1, h2.2.1⟩

/-- The `defaultJobOptions` of the verification queue
(src/queues/verification.queue.ts, lines 14–21). -/
structure JobOptions where
  removeOnComplete : Bool
  attempts : Nat
  backoffType : String
  backoffDelay : Nat
deriving Repr, DecidableEq

/-- `new Queue("verification-jobs", { defaultJobOptions: { removeOnComplete:
true, attempts: 3, backoff: { type: "exponential", delay: 3000 } } })`. -/
def verificationQueueDefaultJobOptions : JobOptions :=
  { removeOnComplete := true, attempts := 3
    backoffType := "exponential", backoffDelay := 3000 }

/-- Outcome of `handleThreatVerifyRespond` as awaited by the worker: a
returned result (whose `verified` flag drives the worker's branching) or a
thrown error (any failure of the verify → respond → post chain, including
transient network/oracle errors). -/
inductive ChainOutcome where
  | ok (verified : Bool)
  | thrown (msg : String)
deriving Repr, DecidableEq

/-- The value a worker processor hands back to the queue: a returned
payload completes the job; a thrown error fails the attempt. -/
inductive ProcessorResult where
  | returned (okPayload : Bool) (errorMessage : Option String)
  | thrown (msg : String)
deriving Repr, DecidableEq

/-- The `verify-one` branch of the verification worker
(src/queues/verification.queue.ts, lines 36–100): awaits the chain, and on
success returns `{ ok: true, result }` after a verification_complete
broadcast; on a thrown error the `catch` logs, broadcasts
verification_failed, and RETURNS `{ error: err.message }` — it does not
rethrow, so the processor never produces a thrown result. -/
def verifyOneProcessor (chain : ChainOutcome) : ProcessorResult × List Notification :=
  match chain with
  | ChainOutcome.ok true =>
    (ProcessorResult.returned true none,
      [Notification.verification_complete "VERIFIED_TRUE" "✅ Verified as true information"])
  | ChainOutcome.ok false =>
    (ProcessorResult.returned true none,
      [Notification.verification_complete "MISINFORMATION"
        "⚠️ Misinformation detected — AI response generated"])
  | ChainOutcome.thrown msg =>
    (ProcessorResult.returned false (some msg),
      [Notification.verification_failed ("❌ Verification failed: " ++ msg)])

/-- The queue's retry discipline for one job, as documented for the job
library the source configures (BullMQ): each attempt runs the processor;
a returned value completes the job, a thrown error consumes one attempt
and is retried (with the configured backoff) while attempts remain; when
the budget is exhausted the job ends in the failed state. Returns the
number of attempts made and whether the job ended failed at queue level. -/
def runJobAux (p : Nat → ProcessorResult) : Nat → Nat → Nat × Bool
  | 0, made => (made, true)
  | Nat.succ remaining, made =>
    match p made with
    | ProcessorResult.returned _ _ => (made + 1, false)
    | ProcessorResult.thrown _ => runJobAux p remaining (made + 1)

/-- One job run under the queue's options: attempts bounded by
`opts.attempts`. -/
def runJob (opts : JobOptions) (p : Nat → ProcessorResult) : Nat × Bool :=
  runJobAux p opts.attempts 0

/-- C9 counterexample: a verify-one job whose chain throws a transient
network error on every attempt is nevertheless completed by the queue on
its first attempt — the worker's catch converts the throw into a normal
return, so the failure is never surfaced to the queue, no retry happens
under the configured attempts=3 exponential backoff, and no queue-level
terminal failure is recorded. -/
theorem verifyOneProcessor_swallows_chain_error :
    (verifyOneProcessor (ChainOutcome.thrown "network error")).1
      = ProcessorResult.returned false (some "network error") ∧
    runJob verificationQueueDefaultJobOptions
        (fun _ => (verifyOneProcessor (ChainOutcome.thrown "network error")).1)
      = (1, false) :=
  ⟨rfl, rfl⟩

/-- C9 amended: the queue is configured with a bounded retry budget of 3
attempts and exponential backoff at 3000 ms, but the verify-one worker
catches every chain error and returns `{ error }` as a normal completion,
so a failing chain is reported only through a verification_failed
notification: the queue sees a successful first attempt, never retries,
and never records a queue-level terminal failure. -/
theorem verifyOneProcessor_no_retry_behavior (chain : ChainOutcome) :
    (∃ okPayload errorMessage,
      (verifyOneProcessor chain).1 = ProcessorResult.returned okPayload errorMessage) ∧
    (∀ msg, chain = ChainOutcome.thrown msg →
      (verifyOneProcessor chain).2
        = [Notification.verification_failed ("❌ Verification failed: " ++ msg)]) ∧
    runJob verificationQueueDefaultJobOptions (fun _ => (verifyOneProcessor chain).1)
      = (1, false) ∧
    verificationQueueDefaultJobOptions.attempts = 3 ∧
    verificationQueueDefaultJobOptions.backoffType = "exponential" ∧
    verificationQueueDefaultJobOptions.backoffDelay = 3000 := by
  refine ⟨?_, ?_, ?_, rfl, rfl, rfl⟩
  · cases chain with
    | ok v => cases v <;> exact ⟨_, _, rfl⟩
    | thrown msg => exact ⟨_, _, rfl⟩
  · intro msg hmsg
    subst hmsg
    rfl
  · cases chain with
    | ok v => cases v <;> rfl
    | thrown msg => rfl

/-- Witness for C9 amended: instantiated at a concretely failing chain. -/
theorem verifyOneProcessor_no_retry_behavior_witness :
    (verifyOneProcessor (ChainOutcome.thrown "oracle timeout")).2
      = [Notification.verification_failed ("❌ Verification failed: " ++ "oracle timeout")] ∧
    runJob verificationQueueDefaultJobOptions
        (fun _ => (verifyOneProcessor (ChainOutcome.thrown "oracle timeout")).1)
      = (1, false) := by
  have h := verifyOneProcessor_no_retry_behavior (ChainOutcome.thrown "oracle timeout")
  exact ⟨h.2.1 "oracle timeout" rfl, h.2.2.1⟩
